import Mathlib

/-!
# Voice capture in `static/app.js` (class `DebateApp`)

A shallow embedding of the recording controller of `DebateApp`:
`startRecording`, `startRecordingLegacy`, `stopRecording`, `processRecording`
and the handlers they install on the `MediaRecorder`.

The browser is single threaded: every handler runs to completion, and the
suspension points of the source (`await getUserMedia`, the recorder's `stop`
event, `await fetch`) are the boundaries between events.  The state of the
whole page is a value of `Sys`; each handler is a function `Sys → Sys` that
appends the observable calls it makes (`Effect`) to `Sys.log`.
`console.log` lines are not modelled.
-/

namespace DebateApp

/-! ## JavaScript values -/

/-- JS `String.prototype.startsWith`. -/
def startsWith (s p : String) : Bool := p.data.isPrefixOf s.data

/-- JS `String.prototype.endsWith`. -/
def endsWith (s p : String) : Bool := p.data.isSuffixOf s.data

/-- JS `a || b` where `a` is a string property that may be missing: the
missing value `undefined` and the empty string are falsy. -/
def orElse (a : Option String) (b : String) : String :=
  match a with
  | some value => if value = "" then b else value
  | none => b

/-- JS string concatenation `"..." + a` of a string property that may be
missing: `undefined` is written out. -/
def jsString (a : Option String) : String :=
  match a with
  | some value => value
  | none => "undefined"

/-- An error object as the handlers read it: `error.name`, and `error.message`,
which is `none` when the object has no message. -/
structure JsError where
  name : String
  message : Option String
deriving DecidableEq, Repr

/-- A `Blob`: its bytes and its declared media type; `size` is the byte count. -/
structure Blob where
  bytes : List Nat
  type : String
deriving DecidableEq, Repr

/-- The `size` attribute of a blob. -/
def Blob.size (b : Blob) : Nat := b.bytes.length

/-- The call `new Blob(parts, { type })`: the parts' bytes in order. -/
def Blob.ofParts (parts : List Blob) (type : String) : Blob :=
  { bytes := (parts.map Blob.bytes).flatten, type := type }

inductive TrackKind
  | audio
  | video
deriving DecidableEq, Repr

/-- A `MediaStreamTrack`: `live` is `readyState === "live"`. -/
structure Track where
  kind : TrackKind
  live : Bool
deriving DecidableEq, Repr

/-- The call `track.stop()`. -/
def Track.stop (t : Track) : Track := { t with live := false }

structure MediaStream where
  tracks : List Track
deriving DecidableEq, Repr

/-- The call `stream.getAudioTracks()`. -/
def MediaStream.getAudioTracks (s : MediaStream) : List Track :=
  s.tracks.filter (fun t => t.kind = TrackKind.audio)

/-- The loop `stream.getTracks().forEach((track) => track.stop())`. -/
def MediaStream.stopAllTracks (s : MediaStream) : MediaStream :=
  { tracks := s.tracks.map Track.stop }

/-- Whether some track of the stream still holds the device. -/
def MediaStream.isLive (s : MediaStream) : Bool := s.tracks.any (fun t => t.live)

inductive RecorderState
  | inactive
  | recording
  | paused
deriving DecidableEq, Repr

/-- How the platform recorder made for a granted stream behaves: whether
`new MediaRecorder(..)`, `.start(1000)` or `.stop()` throws. -/
structure RecorderPlan where
  ctorThrows : Option JsError
  startThrows : Option JsError
  stopThrows : Option JsError
deriving DecidableEq, Repr

/-- A `MediaRecorder` object.  `stream` indexes `Sys.streams`; `options` is the
`mimeType` option it was built with; `hasOnError` tells whether an `onerror`
handler was installed (only `startRecording` installs one); `stopQueued` holds
while the platform still owes the `stop` event. -/
structure MediaRecorder where
  stream : Option Nat
  options : Option String
  state : RecorderState
  stopThrows : Option JsError
  hasOnError : Bool
  stopQueued : Bool
deriving DecidableEq, Repr

/-- The audio constraints object passed to `getUserMedia`. -/
structure Constraints where
  echoCancellation : Bool
  noiseSuppression : Bool
  autoGainControl : Bool
  sampleRate : Nat
  channelCount : Nat
deriving DecidableEq, Repr

/-- The result of `fetch("/transcribe_audio")` followed by `response.json()`:
either of them throws, or the body is `{ success, transcription }` (a missing
transcription is the empty string). -/
inductive FetchResult
  | threw
  | json (success : Bool) (transcription : String)
deriving DecidableEq, Repr

/-- Calls a handler makes that are visible outside the controller. -/
inductive Effect
  | wait (ms : Nat)
  | getUserMedia (constraints : Constraints)
  | legacyGetUserMedia
  | showRecordingError (message : String)
  | addMessage (role : String) (message : String)
  | showLoading (show_ : Bool)
  | fetchTranscribe (body : Blob) (filename : String)
  | setArgumentInput (value : String)
  | recordingUi (active : Bool)
deriving DecidableEq, Repr

/-- Which API a pending microphone request went through. -/
inductive Request
  | modern
  | legacy
deriving DecidableEq, Repr

/-! ## The page -/

/-- What the preflight of `startRecording` reads from `window` and `navigator`.
`mediaDevices` is `navigator.mediaDevices` at the call, `mediaDevicesAfterWait`
its value after the one second wait taken on a local host;
`legacyGetUserMedia` is `navigator.getUserMedia || webkitGetUserMedia ||
mozGetUserMedia || msGetUserMedia`. -/
structure Env where
  hostname : String
  isSecureContext : Bool
  hasNavigator : Bool
  mediaDevices : Bool
  mediaDevicesAfterWait : Bool
  mediaDevicesGetUserMedia : Bool
  legacyGetUserMedia : Bool
  windowMediaRecorder : Bool
  isTypeSupported : String → Bool

/-- The fields of `DebateApp` the recorder uses. -/
structure App where
  isRecording : Bool
  mediaRecorder : Option Nat
  audioChunks : List Blob
deriving DecidableEq, Repr

/-- The controller together with the platform objects it has created. -/
structure Sys where
  app : App
  streams : List MediaStream
  recorders : List MediaRecorder
  pending : List Request
  log : List Effect
deriving DecidableEq, Repr

/-- The state right after `new DebateApp()`. -/
def Sys.init : Sys :=
  { app := { isRecording := false, mediaRecorder := none, audioChunks := [] },
    streams := [], recorders := [], pending := [], log := [] }

/-- Append effects to the log. -/
def Sys.emit (s : Sys) (es : List Effect) : Sys := { s with log := s.log ++ es }

/-- The method `showRecordingError(message)`: banner plus chat message. -/
def showRecordingError (s : Sys) (message : String) : Sys :=
  s.emit [Effect.showRecordingError message]

/-- The constant `isLocalhost` of `startRecording`. -/
def isLocalhost (hostname : String) : Bool :=
  hostname == "localhost" ||
  hostname == "127.0.0.1" ||
  hostname == "0.0.0.0" ||
  startsWith hostname "192.168." ||
  startsWith hostname "10." ||
  endsWith hostname ".local"

/-- The constraints `startRecording` asks for. -/
def constraints : Constraints :=
  { echoCancellation := true, noiseSuppression := true, autoGainControl := true,
    sampleRate := 44100, channelCount := 1 }

/-- The callback form `startRecordingLegacy(getUserMedia)` up to the request. -/
def startRecordingLegacy (s : Sys) : Sys :=
  { s.emit [Effect.legacyGetUserMedia] with pending := s.pending ++ [Request.legacy] }

/-- The method `startRecording()` up to `await getUserMedia(constraints)`. -/
def startRecording (env : Env) (s : Sys) : Sys :=
  if s.app.isRecording then s
  else
    let isLocal := isLocalhost env.hostname
    if !env.hasNavigator then showRecordingError s "Navigator not available"
    else
      let waits := isLocal && !env.mediaDevices
      let s1 := if waits then s.emit [Effect.wait 1000] else s
      let mediaDevices := if waits then env.mediaDevicesAfterWait else env.mediaDevices
      if !mediaDevices then
        if env.legacyGetUserMedia then startRecordingLegacy s1
        else showRecordingError s1
          "MediaDevices API not supported in this browser. Please update Chrome or try Firefox."
      else if !env.mediaDevicesGetUserMedia then
        showRecordingError s1 "getUserMedia not available. Please update your browser."
      else if !isLocal && !env.isSecureContext then
        showRecordingError s1 "Microphone requires HTTPS. Please use https:// or run on localhost."
      else if !env.windowMediaRecorder then
        showRecordingError s1 "MediaRecorder not supported in this browser."
      else
        { s1.emit [Effect.getUserMedia constraints] with pending := s1.pending ++ [Request.modern] }

/-- The `mimeType` chosen by `startRecording`. -/
def selectMimeType (isTypeSupported : String → Bool) : String :=
  if isTypeSupported "audio/webm;codecs=opus" then "audio/webm;codecs=opus"
  else if isTypeSupported "audio/webm" then "audio/webm"
  else if isTypeSupported "audio/mp4" then "audio/mp4"
  else ""

/-- The `catch (error)` block of `startRecording`: the message shown. -/
def catchMessage (error : JsError) : String :=
  "Could not start recording: " ++
    (if error.name = "NotAllowedError" then
      "Microphone access denied. Please click the microphone icon in your browser's address bar and allow access."
    else if error.name = "NotFoundError" then
      "No microphone found. Please connect a microphone and refresh the page."
    else if error.name = "NotReadableError" then
      "Microphone is being used by another application. Please close other apps using the microphone."
    else if error.name = "OverconstrainedError" then
      "Microphone doesn't support the required settings. Please try a different microphone."
    else if error.name = "SecurityError" then
      "Security error. Please ensure you're using HTTPS or localhost."
    else orElse error.message "Unknown error occurred.")

/-- The `catch (error)` block of `startRecording`. -/
def startRecordingCatch (s : Sys) (error : JsError) : Sys :=
  showRecordingError s (catchMessage error)

/-- The part of `startRecording` after `await getUserMedia` resolved with
`stream`; an exception thrown inside the `try` reaches `startRecordingCatch`
with the assignments made so far kept. -/
def startRecordingGranted (env : Env) (s : Sys) (stream : MediaStream) (plan : RecorderPlan) : Sys :=
  let sid := s.streams.length
  let s1 := { s with streams := s.streams ++ [stream] }
  if stream.getAudioTracks.length = 0 then
    showRecordingError s1 "No audio tracks available. Please check your microphone."
  else
    let mimeType := selectMimeType env.isTypeSupported
    let options := if mimeType = "" then none else some mimeType
    match plan.ctorThrows with
    | some error => startRecordingCatch s1 error
    | none =>
      let rid := s1.recorders.length
      let recorder : MediaRecorder :=
        { stream := some sid, options := options, state := RecorderState.inactive,
          stopThrows := plan.stopThrows, hasOnError := true, stopQueued := false }
      let s2 := { s1 with
        recorders := s1.recorders ++ [recorder],
        app := { s1.app with mediaRecorder := some rid, audioChunks := [] } }
      match plan.startThrows with
      | some error => startRecordingCatch s2 error
      | none =>
        { s2 with
          recorders := s2.recorders.set rid { recorder with state := RecorderState.recording },
          app := { s2.app with isRecording := true },
          log := s2.log ++ [Effect.recordingUi true] }

/-- The success callback of `startRecordingLegacy`. -/
def startRecordingLegacyGranted (env : Env) (s : Sys) (stream : MediaStream) (plan : RecorderPlan) : Sys :=
  let sid := s.streams.length
  let s1 := { s with streams := s.streams ++ [stream] }
  if !env.windowMediaRecorder then
    showRecordingError s1 "MediaRecorder not supported. Please update your browser."
  else
    match plan.ctorThrows with
    | some error =>
      showRecordingError s1 ("Failed to start recording: " ++ jsString error.message)
    | none =>
      let rid := s1.recorders.length
      let recorder : MediaRecorder :=
        { stream := some sid, options := none, state := RecorderState.inactive,
          stopThrows := plan.stopThrows, hasOnError := false, stopQueued := false }
      let s2 := { s1 with
        recorders := s1.recorders ++ [recorder],
        app := { s1.app with mediaRecorder := some rid, audioChunks := [] } }
      match plan.startThrows with
      | some error =>
        showRecordingError s2 ("Failed to start recording: " ++ jsString error.message)
      | none =>
        { s2 with
          recorders := s2.recorders.set rid { recorder with state := RecorderState.recording },
          app := { s2.app with isRecording := true },
          log := s2.log ++ [Effect.recordingUi true] }

/-- The error callback of `startRecordingLegacy`. -/
def startRecordingLegacyRejected (s : Sys) (error : JsError) : Sys :=
  showRecordingError s ("Microphone access failed: " ++ jsString error.message)

/-- The handler `mediaRecorder.ondataavailable` (both paths install the same
test): `event.data` may be missing. -/
def ondataavailable (s : Sys) (data : Option Blob) : Sys :=
  match data with
  | some blob =>
    if blob.size > 0 then { s with app := { s.app with audioChunks := s.app.audioChunks ++ [blob] } }
    else s
  | none => s

/-- The `try` block of `stopRecording` on recorder `r` (index `rid`): `none`
when `mediaRecorder.stop()` throws, which skips the rest of the block. -/
def stopRecordingTry (s : Sys) (rid : Nat) (r : MediaRecorder) : Option Sys :=
  let afterStop : Option Sys :=
    if r.state = RecorderState.recording then
      match r.stopThrows with
      | some _ => none
      | none =>
        some { s with recorders :=
          s.recorders.set rid { r with state := RecorderState.inactive, stopQueued := true } }
    else some s
  match afterStop with
  | none => none
  | some s1 =>
    match r.stream with
    | some sid =>
      match s1.streams.get? sid with
      | some stream => some { s1 with streams := s1.streams.set sid stream.stopAllTracks }
      | none => some s1
    | none => some s1

/-- The method `stopRecording()`. -/
def stopRecording (s : Sys) : Sys :=
  if !s.app.isRecording then s
  else
    match s.app.mediaRecorder with
    | none => s
    | some rid =>
      match s.recorders.get? rid with
      | none => s
      | some r =>
        let s1 := (stopRecordingTry s rid r).getD s
        { s1 with app := { s1.app with isRecording := false },
                  log := s1.log ++ [Effect.recordingUi false] }

/-- The method `processRecording()`, given what the transcription request
returns should it be made: the calls it makes, in order. -/
def processRecording (audioChunks : List Blob) (response : FetchResult) : List Effect :=
  if audioChunks.length = 0 then
    [Effect.addMessage "system" "No audio recorded. Please try holding the button longer."]
  else
    let totalSize := audioChunks.foldl (fun size chunk => size + chunk.size) 0
    if totalSize = 0 then
      [Effect.addMessage "system" "No audio data recorded. Please check your microphone."]
    else
      let audioBlob := Blob.ofParts audioChunks "audio/wav"
      [Effect.showLoading true, Effect.fetchTranscribe audioBlob "recording.wav"] ++
      (match response with
        | FetchResult.json true transcription =>
          if transcription = "" then
            [Effect.addMessage "system" "❌ Transcription failed. Please try again or type your argument."]
          else
            [Effect.setArgumentInput transcription,
             Effect.addMessage "system" ("🎤 Transcribed: \"" ++ transcription ++ "\"")]
        | FetchResult.json false _ =>
          [Effect.addMessage "system" "❌ Transcription failed. Please try again or type your argument."]
        | FetchResult.threw =>
          [Effect.addMessage "system" "❌ Recording processing failed. Please try again."]) ++
      [Effect.showLoading false]

/-- The handler `mediaRecorder.onstop`. -/
def onstop (s : Sys) (response : FetchResult) : Sys :=
  s.emit (processRecording s.app.audioChunks response)

/-- The handler `mediaRecorder.onerror` of `startRecording`. -/
def onerror (s : Sys) (error : Option JsError) : Sys :=
  let message := match error with
    | some e => orElse e.message "Unknown error"
    | none => "Unknown error"
  stopRecording (showRecordingError s ("Recording error: " ++ message))

/-! ## Events -/

/-- What can happen to the page: the two user signals of the record button
and the platform events the installed handlers react to.  `grant i` and
`reject i` settle the pending request at position `i`; the other platform
events name the recorder that fires them. -/
inductive Event
  | beginSignal
  | endSignal
  | grant (i : Nat) (stream : MediaStream) (plan : RecorderPlan)
  | reject (i : Nat) (error : JsError)
  | dataavailable (rid : Nat) (data : Option Blob)
  | stopComplete (rid : Nat) (response : FetchResult)
  | recorderError (rid : Nat) (error : Option JsError)

/-- One event.  An event that names no pending request, or no recorder, or a
`stop` event nobody queued, does not happen. -/
def step (env : Env) (s : Sys) : Event → Sys
  | Event.beginSignal => startRecording env s
  | Event.endSignal => stopRecording s
  | Event.grant i stream plan =>
    match s.pending.get? i with
    | some Request.modern =>
      startRecordingGranted env { s with pending := s.pending.eraseIdx i } stream plan
    | some Request.legacy =>
      startRecordingLegacyGranted env { s with pending := s.pending.eraseIdx i } stream plan
    | none => s
  | Event.reject i error =>
    match s.pending.get? i with
    | some Request.modern => startRecordingCatch { s with pending := s.pending.eraseIdx i } error
    | some Request.legacy =>
      startRecordingLegacyRejected { s with pending := s.pending.eraseIdx i } error
    | none => s
  | Event.dataavailable rid data =>
    match s.recorders.get? rid with
    | some _ => ondataavailable s data
    | none => s
  | Event.stopComplete rid response =>
    match s.recorders.get? rid with
    | some r =>
      if r.stopQueued then
        onstop { s with recorders := s.recorders.set rid { r with stopQueued := false } } response
      else s
    | none => s
  | Event.recorderError rid error =>
    match s.recorders.get? rid with
    | some r =>
      let stopped : MediaRecorder := { r with state := RecorderState.inactive, stopQueued := true }
      let s1 : Sys := { s with recorders := s.recorders.set rid stopped }
      if r.hasOnError then onerror s1 error else s1
    | none => s

/-- A finite sequence of events, from state `s`. -/
def run (env : Env) (s : Sys) (events : List Event) : Sys :=
  events.foldl (step env) s

/-! ## The states of the specification -/

/-- The controller states named by the specification. -/
inductive CaptureState
  | idle
  | requesting
  | recording
  | stopping
deriving DecidableEq, Repr

/-- The specification's state of a page: Recording while `isRecording` is set;
otherwise Requesting while a microphone request is pending, Stopping while a
recorder still owes its `stop` event, and Idle when none of these holds. -/
def captureState (s : Sys) : CaptureState :=
  if s.app.isRecording then CaptureState.recording
  else if !s.pending.isEmpty then CaptureState.requesting
  else if s.recorders.any (fun r => r.stopQueued) then CaptureState.stopping
  else CaptureState.idle

/-- The number of granted streams that still have a live track. -/
def liveStreams (s : Sys) : Nat := (s.streams.filter MediaStream.isLive).length

/-- The number of media-stream requests in a log, through either API. -/
def streamRequests (log : List Effect) : Nat :=
  (log.filter (fun e => match e with
    | Effect.getUserMedia _ => true
    | Effect.legacyGetUserMedia => true
    | _ => false)).length

/-! ## Sample pages -/

/-- A stream with one live microphone track. -/
def micStream : MediaStream := { tracks := [{ kind := TrackKind.audio, live := true }] }

/-- A recorder that never throws. -/
def okPlan : RecorderPlan := { ctorThrows := none, startThrows := none, stopThrows := none }

/-- A secure page on a public host with the modern API and the recorder. -/
def envModern : Env :=
  { hostname := "example.com", isSecureContext := true, hasNavigator := true,
    mediaDevices := true, mediaDevicesAfterWait := true, mediaDevicesGetUserMedia := true,
    legacyGetUserMedia := false, windowMediaRecorder := true,
    isTypeSupported := fun _ => true }

/-- A page on a public host with only the callback `getUserMedia`. -/
def envLegacy (secure recorder : Bool) : Env :=
  { hostname := "example.com", isSecureContext := secure, hasNavigator := true,
    mediaDevices := false, mediaDevicesAfterWait := false, mediaDevicesGetUserMedia := false,
    legacyGetUserMedia := true, windowMediaRecorder := recorder,
    isTypeSupported := fun _ => true }

/-- A page served over plain http from `hostname`, with every API present. -/
def envInsecure (hostname : String) : Env :=
  { hostname := hostname, isSecureContext := false, hasNavigator := true,
    mediaDevices := true, mediaDevicesAfterWait := true, mediaDevicesGetUserMedia := true,
    legacyGetUserMedia := true, windowMediaRecorder := true,
    isTypeSupported := fun _ => true }

/-- A plain error object named `name`. -/
def sampleError (name : String) : JsError := { name := name, message := some "failed" }

/-- A recorder whose constructor throws. -/
def ctorThrowsPlan : RecorderPlan :=
  { ctorThrows := some (sampleError "NotSupportedError"), startThrows := none, stopThrows := none }

/-- A recorder whose `start` throws. -/
def startThrowsPlan : RecorderPlan :=
  { ctorThrows := none, startThrows := some (sampleError "InvalidStateError"), stopThrows := none }

/-- A recorder whose `stop` throws. -/
def stopThrowsPlan : RecorderPlan :=
  { ctorThrows := none, startThrows := none, stopThrows := some (sampleError "NotAllowedError") }

/-! ## Reading the output of the assembler -/

/-- The requests to the transcription collaborator in a log, in order. -/
def transcriptionRequests (log : List Effect) : List Effect :=
  log.filter (fun e => match e with
    | Effect.fetchTranscribe _ _ => true
    | _ => false)

/-- The outcome EmptyCapture: the assembler only tells the user that no audio
was recorded. -/
def isEmptyCapture (out : List Effect) : Bool :=
  out == [Effect.addMessage "system" "No audio recorded. Please try holding the button longer."] ||
  out == [Effect.addMessage "system" "No audio data recorded. Please check your microphone."]

/-- The fragments a delivery carries, in arrival order, that are not empty. -/
def nonEmptyFragments (fragments : List (Option Blob)) : List Blob :=
  fragments.reduceOption.filter (fun b => 0 < b.size)

/-- A blob of the given bytes. -/
def blobOf (bytes : List Nat) : Blob := { bytes := bytes, type := "audio/webm" }

/-! ## The host classes of the specification -/

/-- The parts of a host name between its dots. -/
def splitOnDot : List Char → List (List Char)
  | [] => [[]]
  | c :: cs =>
    if c = '.' then [] :: splitOnDot cs
    else
      match splitOnDot cs with
      | [] => [[c]]
      | part :: parts => (c :: part) :: parts

/-- A decimal octet: one to three digits with value at most 255. -/
def parseOctet (cs : List Char) : Option Nat :=
  if cs.isEmpty || 3 < cs.length || !cs.all Char.isDigit then none
  else
    let n := cs.foldl (fun acc c => 10 * acc + (c.toNat - 48)) 0
    if n ≤ 255 then some n else none

/-- The four octets of a dotted-quad IPv4 address. -/
def parseIPv4 (hostname : String) : Option (Nat × Nat × Nat × Nat) :=
  match splitOnDot hostname.data with
  | [a, b, c, d] =>
    match parseOctet a, parseOctet b, parseOctet c, parseOctet d with
    | some a, some b, some c, some d => some (a, b, c, d)
    | _, _, _, _ => none
  | _ => none

/-- The specification's "loopback address": the name `localhost` or an IPv4
address in 127.0.0.0/8. -/
def isLoopbackAddress (hostname : String) : Bool :=
  hostname == "localhost" ||
  match parseIPv4 hostname with
  | some (a, _, _, _) => a == 127
  | none => false

/-- The specification's "private-range address": an IPv4 address in 10.0.0.0/8,
172.16.0.0/12 or 192.168.0.0/16. -/
def isPrivateRangeAddress (hostname : String) : Bool :=
  match parseIPv4 hostname with
  | some (a, b, _, _) => a == 10 || (a == 172 && 16 ≤ b && b ≤ 31) || (a == 192 && b == 168)
  | none => false

/-- The specification's "recognized local-network suffix". -/
def hasLocalSuffix (hostname : String) : Bool := endsWith hostname ".local"

/-- The specification's local/trusted host. -/
def isLocalTrustedHost (hostname : String) : Bool :=
  isLoopbackAddress hostname || isPrivateRangeAddress hostname || hasLocalSuffix hostname

/-! ## The failure table of the specification -/

/-- The reasons a rejected microphone request is classified into. -/
inductive FailureReason
  | permissionDenied
  | deviceNotFound
  | deviceBusy
  | constraintsUnsatisfiable
  | securityError
  | unknownCaptureFailure
deriving DecidableEq, Repr

/-- The failure table: the platform's error name to the reason. -/
def failureTable (name : String) : FailureReason :=
  if name = "NotAllowedError" then FailureReason.permissionDenied
  else if name = "NotFoundError" then FailureReason.deviceNotFound
  else if name = "NotReadableError" then FailureReason.deviceBusy
  else if name = "OverconstrainedError" then FailureReason.constraintsUnsatisfiable
  else if name = "SecurityError" then FailureReason.securityError
  else FailureReason.unknownCaptureFailure

/-- The user guidance `startRecording` shows for a reason; the generic reason
carries the platform's own message. -/
def FailureReason.guidance (message : Option String) : FailureReason → String
  | FailureReason.permissionDenied =>
    "Microphone access denied. Please click the microphone icon in your browser's address bar and allow access."
  | FailureReason.deviceNotFound =>
    "No microphone found. Please connect a microphone and refresh the page."
  | FailureReason.deviceBusy =>
    "Microphone is being used by another application. Please close other apps using the microphone."
  | FailureReason.constraintsUnsatisfiable =>
    "Microphone doesn't support the required settings. Please try a different microphone."
  | FailureReason.securityError =>
    "Security error. Please ensure you're using HTTPS or localhost."
  | FailureReason.unknownCaptureFailure => orElse message "Unknown error occurred."

/-! ## Encodings -/

/-- The encodings `startRecording` probes with `MediaRecorder.isTypeSupported`,
in the order it probes them. -/
def probedMimeTypes : List String := ["audio/webm;codecs=opus", "audio/webm", "audio/mp4"]

/-- The priority order of the specification: compressed with codec hint, then
compressed generic. -/
def specMimeTypes : List String := ["audio/webm;codecs=opus", "audio/webm"]

/-- A secure page whose recorder supports only `audio/mp4`. -/
def envMp4Only : Env := { envModern with isTypeSupported := fun t => t == "audio/mp4" }

/-! ## Re-entrancy of `startRecording` -/

theorem captureState_recording_iff (s : Sys) :
    captureState s = CaptureState.recording ↔ s.app.isRecording = true := by
  unfold captureState
  cases s.app.isRecording
  · simp only [Bool.false_eq_true, if_false, iff_false]
    split_ifs <;> simp
  · simp

/-- C1 (as stated, refuted): a begin-signal while Requesting requests a second
media stream, and a begin-signal while Stopping requests a new one. -/
theorem startRecording_reenters_when_requesting_or_stopping :
    (captureState (run envModern Sys.init [Event.beginSignal]) = CaptureState.requesting ∧
      streamRequests (run envModern Sys.init [Event.beginSignal]).log = 1 ∧
      streamRequests (run envModern Sys.init [Event.beginSignal, Event.beginSignal]).log = 2 ∧
      (run envModern Sys.init [Event.beginSignal, Event.beginSignal]).pending =
        [Request.modern, Request.modern]) ∧
    (captureState (run envModern Sys.init
        [Event.beginSignal, Event.grant 0 micStream okPlan, Event.endSignal]) =
        CaptureState.stopping ∧
      (run envModern Sys.init
        [Event.beginSignal, Event.grant 0 micStream okPlan, Event.endSignal,
         Event.beginSignal]).pending = [Request.modern]) := by
  decide

/-- C1 (amended): a begin-signal while the controller is Recording is a no-op:
the page, its pending requests and its log are unchanged. -/
theorem startRecording_noop_when_recording (env : Env) (s : Sys)
    (h : captureState s = CaptureState.recording) :
    step env s Event.beginSignal = s := by
  have hrec : s.app.isRecording = true := (captureState_recording_iff s).mp h
  simp [step, startRecording, hrec]

theorem startRecording_noop_when_recording_witness :
    captureState (run envModern Sys.init [Event.beginSignal, Event.grant 0 micStream okPlan]) =
        CaptureState.recording ∧
      step envModern (run envModern Sys.init [Event.beginSignal, Event.grant 0 micStream okPlan])
        Event.beginSignal =
        run envModern Sys.init [Event.beginSignal, Event.grant 0 micStream okPlan] :=
  ⟨by decide, startRecording_noop_when_recording _ _ (by decide)⟩

/-! ## Ownership of the media stream -/

/-- C2 (the code at the failing input): two begin-signals while the first
request is pending, both granted, leave two streams with live tracks, the first
recorder still recording while the controller only knows the second; the same
count is reached when a recorder constructor throws and the next attempt is
granted. -/
theorem two_live_streams_held :
    (liveStreams (run envModern Sys.init
        [Event.beginSignal, Event.beginSignal,
         Event.grant 0 micStream okPlan, Event.grant 0 micStream okPlan]) = 2 ∧
      (run envModern Sys.init
        [Event.beginSignal, Event.beginSignal,
         Event.grant 0 micStream okPlan, Event.grant 0 micStream okPlan]).app.mediaRecorder =
        some 1 ∧
      ((run envModern Sys.init
        [Event.beginSignal, Event.beginSignal,
         Event.grant 0 micStream okPlan, Event.grant 0 micStream okPlan]).recorders.map
          (fun r => r.state)) = [RecorderState.recording, RecorderState.recording] ∧
      liveStreams (run envModern Sys.init
        [Event.beginSignal, Event.beginSignal,
         Event.grant 0 micStream okPlan, Event.grant 0 micStream okPlan,
         Event.endSignal]) = 1) ∧
    liveStreams (run envModern Sys.init
        [Event.beginSignal, Event.grant 0 micStream ctorThrowsPlan,
         Event.beginSignal, Event.grant 0 micStream okPlan]) = 2 := by
  decide

/-- When `mediaRecorder.stop()` does not throw, `stopRecording` on a recording
controller stops every track of the recorder's stream and clears the flag,
whatever the recorder's state. -/
theorem stopRecording_releases_when_stop_returns (s : Sys) (rid sid : Nat)
    (r : MediaRecorder) (stream : MediaStream)
    (hrec : s.app.isRecording = true) (hcur : s.app.mediaRecorder = some rid)
    (hr : s.recorders.get? rid = some r) (hsid : r.stream = some sid)
    (hstream : s.streams.get? sid = some stream)
    (hstop : r.state = RecorderState.recording → r.stopThrows = none) :
    (stopRecording s).streams.get? sid = some stream.stopAllTracks ∧
      (stopRecording s).app.isRecording = false := by
  have htry : stopRecordingTry s rid r =
      some { (if r.state = RecorderState.recording then
          { s with recorders :=
              s.recorders.set rid { r with state := RecorderState.inactive, stopQueued := true } }
        else s) with streams := s.streams.set sid stream.stopAllTracks } := by
    unfold stopRecordingTry
    by_cases hst : r.state = RecorderState.recording
    · simp only [hst, if_true, hstop hst, hsid, hstream]
    · simp only [hst, if_false, hsid, hstream]
  have hlt : sid < s.streams.length := by
    rcases Nat.lt_or_ge sid s.streams.length with h | h
    · exact h
    · rw [List.get?_eq_none.mpr h] at hstream
      cases hstream
  unfold stopRecording
  simp only [hrec, Bool.not_true, Bool.false_eq_true, if_false, hcur, hr, htry, Option.getD_some]
  simp [List.get?_eq_getElem?, hlt]

/-- C3 (the code at the failing input): a session in Recording whose encoder
throws from `stop()`: the end-signal clears the flag but the stream keeps its
live track. -/
theorem stopRecording_keeps_tracks_when_stop_throws :
    captureState (run envModern Sys.init
        [Event.beginSignal, Event.grant 0 micStream stopThrowsPlan]) = CaptureState.recording ∧
      (run envModern Sys.init
        [Event.beginSignal, Event.grant 0 micStream stopThrowsPlan, Event.endSignal]).streams =
        [micStream] ∧
      liveStreams (run envModern Sys.init
        [Event.beginSignal, Event.grant 0 micStream stopThrowsPlan, Event.endSignal]) = 1 ∧
      (run envModern Sys.init
        [Event.beginSignal, Event.grant 0 micStream stopThrowsPlan,
         Event.endSignal]).app.isRecording = false ∧
      (run envModern Sys.init
        [Event.beginSignal, Event.grant 0 micStream stopThrowsPlan, Event.endSignal,
         Event.endSignal]).streams = [micStream] := by
  decide

/-- C4 (the code at the failing inputs): a granted stream whose attempt fails
before Recording keeps its live track, on the legacy path when the recorder API
is missing and on the modern path when the recorder constructor or `start`
throws, and a later end-signal releases nothing. -/
theorem granted_stream_leaks_on_failure :
    ((run (envLegacy true false) Sys.init
        [Event.beginSignal, Event.grant 0 micStream okPlan]).streams = [micStream] ∧
      (run (envLegacy true false) Sys.init
        [Event.beginSignal, Event.grant 0 micStream okPlan]).app.isRecording = false ∧
      (run (envLegacy true false) Sys.init
        [Event.beginSignal, Event.grant 0 micStream okPlan, Event.endSignal]).streams =
        [micStream]) ∧
    ((run envModern Sys.init
        [Event.beginSignal, Event.grant 0 micStream ctorThrowsPlan]).streams = [micStream] ∧
      (run envModern Sys.init
        [Event.beginSignal, Event.grant 0 micStream ctorThrowsPlan]).app.isRecording = false ∧
      (run envModern Sys.init
        [Event.beginSignal, Event.grant 0 micStream ctorThrowsPlan, Event.endSignal]).streams =
        [micStream]) ∧
    ((run envModern Sys.init
        [Event.beginSignal, Event.grant 0 micStream startThrowsPlan]).streams = [micStream] ∧
      (run envModern Sys.init
        [Event.beginSignal, Event.grant 0 micStream startThrowsPlan]).app.isRecording = false ∧
      (run envModern Sys.init
        [Event.beginSignal, Event.grant 0 micStream startThrowsPlan, Event.endSignal]).streams =
        [micStream]) := by
  decide

/-! ## The payload assembler -/

theorem foldl_size_eq_sum (chunks : List Blob) (acc : Nat) :
    chunks.foldl (fun size chunk => size + chunk.size) acc = acc + (chunks.map Blob.size).sum := by
  induction chunks generalizing acc with
  | nil => simp
  | cons c cs ih => simp [List.foldl_cons, ih, Nat.add_assoc]

theorem transcriptionRequests_processRecording (chunks : List Blob) (response : FetchResult) :
    transcriptionRequests (processRecording chunks response) =
      if chunks = [] ∨ (chunks.map Blob.size).sum = 0 then []
      else [Effect.fetchTranscribe (Blob.ofParts chunks "audio/wav") "recording.wav"] := by
  unfold processRecording
  by_cases hnil : chunks = []
  · simp [hnil, transcriptionRequests]
  · have hlen : ¬ chunks.length = 0 := fun h => hnil (List.length_eq_zero.mp h)
    by_cases hsum : (chunks.map Blob.size).sum = 0
    · simp only [hlen, if_false, foldl_size_eq_sum, Nat.zero_add, hsum, if_true, or_true]
      simp [transcriptionRequests]
    · simp only [hlen, if_false, foldl_size_eq_sum, Nat.zero_add, hsum, hnil, or_self]
      rcases response with _ | ⟨success, transcription⟩
      · simp [transcriptionRequests]
      · cases success
        · simp [transcriptionRequests]
        · by_cases ht : transcription = "" <;> simp [transcriptionRequests, ht]

theorem isEmptyCapture_processRecording (chunks : List Blob) (response : FetchResult) :
    isEmptyCapture (processRecording chunks response) = true ↔
      (chunks = [] ∨ (chunks.map Blob.size).sum = 0) := by
  unfold processRecording
  by_cases hnil : chunks = []
  · simp [hnil, isEmptyCapture]
  · have hlen : ¬ chunks.length = 0 := fun h => hnil (List.length_eq_zero.mp h)
    by_cases hsum : (chunks.map Blob.size).sum = 0
    · simp only [hlen, if_false, foldl_size_eq_sum, Nat.zero_add, hsum, if_true, or_true]
      simp [isEmptyCapture]
    · simp only [hlen, if_false, foldl_size_eq_sum, Nat.zero_add, hsum, hnil, or_self, iff_false]
      simp [isEmptyCapture]

/-- C5: `processRecording` ends in EmptyCapture, with a no-audio message and no
request to the transcription collaborator, exactly when the buffer is empty or
its sizes sum to zero, and otherwise makes exactly one request carrying the
assembled blob; it fails for no chunk and for two empty chunks, and makes one
request of 8 bytes for chunks of 5, 0 and 3 bytes. -/
theorem processRecording_emptyCapture_iff (chunks : List Blob) (response : FetchResult) :
    (isEmptyCapture (processRecording chunks response) = true ↔
        (chunks = [] ∨ (chunks.map Blob.size).sum = 0)) ∧
    (transcriptionRequests (processRecording chunks response) =
        if chunks = [] ∨ (chunks.map Blob.size).sum = 0 then []
        else [Effect.fetchTranscribe (Blob.ofParts chunks "audio/wav") "recording.wav"]) ∧
    (isEmptyCapture (processRecording [] response) = true ∧
      transcriptionRequests (processRecording [] response) = []) ∧
    (isEmptyCapture (processRecording [blobOf [], blobOf []] response) = true ∧
      transcriptionRequests (processRecording [blobOf [], blobOf []] response) = []) ∧
    (isEmptyCapture
        (processRecording [blobOf [1, 2, 3, 4, 5], blobOf [], blobOf [6, 7, 8]] response) = false ∧
      transcriptionRequests
        (processRecording [blobOf [1, 2, 3, 4, 5], blobOf [], blobOf [6, 7, 8]] response) =
        [Effect.fetchTranscribe
          { bytes := [1, 2, 3, 4, 5, 6, 7, 8], type := "audio/wav" } "recording.wav"]) := by
  refine ⟨isEmptyCapture_processRecording chunks response,
    transcriptionRequests_processRecording chunks response, ⟨?_, ?_⟩, ⟨?_, ?_⟩, ⟨?_, ?_⟩⟩
  · exact (isEmptyCapture_processRecording [] response).mpr (Or.inl rfl)
  · rw [transcriptionRequests_processRecording]; simp
  · exact (isEmptyCapture_processRecording _ response).mpr (Or.inr (by decide))
  · rw [transcriptionRequests_processRecording]; simp [blobOf, Blob.size]
  · rw [Bool.eq_false_iff, Ne, isEmptyCapture_processRecording]
    simp [blobOf, Blob.size]
  · rw [transcriptionRequests_processRecording]
    simp [blobOf, Blob.size, Blob.ofParts]

/-! ## Buffering of chunks -/

theorem nonEmptyFragments_nil : nonEmptyFragments [] = [] := rfl

theorem nonEmptyFragments_cons (d : Option Blob) (ds : List (Option Blob)) :
    nonEmptyFragments (d :: ds) =
      (match d with
        | some blob => if blob.size > 0 then [blob] else []
        | none => []) ++ nonEmptyFragments ds := by
  unfold nonEmptyFragments
  cases d with
  | none => simp [List.reduceOption_cons_of_none]
  | some blob =>
    by_cases h : 0 < blob.size <;> simp [List.reduceOption_cons_of_some, List.filter_cons, h]

theorem foldl_ondataavailable (fragments : List (Option Blob)) (s : Sys) :
    fragments.foldl ondataavailable s =
      { s with app := { s.app with
          audioChunks := s.app.audioChunks ++ nonEmptyFragments fragments } } := by
  induction fragments generalizing s with
  | nil => simp [nonEmptyFragments_nil]
  | cons d ds ih =>
    rw [List.foldl_cons, ih, nonEmptyFragments_cons]
    cases d with
    | none => simp [ondataavailable]
    | some blob =>
      by_cases h : blob.size > 0 <;> simp [ondataavailable, h]

theorem run_dataavailable (env : Env) (rid : Nat) (fragments : List (Option Blob)) (s : Sys)
    (hrid : rid < s.recorders.length) :
    run env s (fragments.map (Event.dataavailable rid)) = fragments.foldl ondataavailable s := by
  unfold run
  induction fragments generalizing s with
  | nil => rfl
  | cons d ds ih =>
    have hget : s.recorders.get? rid = some (s.recorders.get ⟨rid, hrid⟩) :=
      List.get?_eq_get hrid
    have hstep : step env s (Event.dataavailable rid d) = ondataavailable s d := by
      simp only [step, hget]
    have hlen : rid < (ondataavailable s d).recorders.length := by
      unfold ondataavailable
      cases d with
      | none => exact hrid
      | some blob => by_cases h : blob.size > 0 <;> simp [h, hrid]
    rw [List.map_cons, List.foldl_cons, List.foldl_cons, hstep]
    exact ih _ hlen

theorem bytes_nonEmptyFragments (fragments : List (Option Blob)) :
    ((nonEmptyFragments fragments).map Blob.bytes).flatten =
      (fragments.reduceOption.map Blob.bytes).flatten := by
  induction fragments with
  | nil => rfl
  | cons d ds ih =>
    rw [nonEmptyFragments_cons]
    cases d with
    | none => simpa [List.reduceOption_cons_of_none] using ih
    | some blob =>
      by_cases h : blob.size > 0
      · simp [List.reduceOption_cons_of_some, h, ih]
      · have hb : blob.bytes = [] := by
          apply List.length_eq_zero.mp
          unfold Blob.size at h
          omega
        simp [List.reduceOption_cons_of_some, h, ih, hb]

theorem sum_nonEmptyFragments_eq_zero (fragments : List (Option Blob)) :
    ((nonEmptyFragments fragments).map Blob.size).sum = 0 ↔ nonEmptyFragments fragments = [] := by
  constructor
  · intro h
    cases hk : nonEmptyFragments fragments with
    | nil => rfl
    | cons b bs =>
      have hmem : b ∈ nonEmptyFragments fragments := by rw [hk]; exact List.mem_cons_self _ _
      have hpos : 0 < b.size := by
        unfold nonEmptyFragments at hmem
        simpa using (List.mem_filter.mp hmem).2
      rw [hk] at h
      simp only [List.map_cons, List.sum_cons] at h
      omega
  · intro h
    rw [h]
    rfl

theorem size_ofParts (parts : List Blob) (type : String) :
    (Blob.ofParts parts type).size = (parts.map Blob.size).sum := by
  unfold Blob.ofParts Blob.size
  induction parts with
  | nil => rfl
  | cons b bs ih =>
    simp only [List.map_cons, List.flatten_cons, List.length_append, List.sum_cons]
    simp only at ih
    rw [ih]

theorem run_append (env : Env) (s : Sys) (xs ys : List Event) :
    run env s (xs ++ ys) = run env (run env s xs) ys := by
  unfold run
  exact List.foldl_append _ _ _ _

theorem stopRecording_of_recording (s : Sys) (rid : Nat) (r : MediaRecorder)
    (hrec : s.app.isRecording = true) (hcur : s.app.mediaRecorder = some rid)
    (hr : s.recorders.get? rid = some r) (hstate : r.state = RecorderState.recording)
    (hstop : r.stopThrows = none) :
    (stopRecording s).app = { s.app with isRecording := false } ∧
      (stopRecording s).recorders =
        s.recorders.set rid { r with state := RecorderState.inactive, stopQueued := true } ∧
      (stopRecording s).log = s.log ++ [Effect.recordingUi false] := by
  unfold stopRecording
  simp only [hrec, Bool.not_true, Bool.false_eq_true, if_false, hcur, hr]
  unfold stopRecordingTry
  simp only [hstate, if_true, hstop]
  cases r.stream with
  | none => simp [hcur]
  | some sid =>
    simp only
    cases s.streams.get? sid with
    | none => simp [hcur]
    | some stream => simp [hcur]

/-- C6: in a session that is Recording with an empty buffer, for any chunks
delivered before and after the end-signal, the buffer at stop-complete is
exactly the delivered fragments of non-zero size in arrival order; the blob
assembled then has the delivered bytes in arrival order, its size is the sum of
the fragment sizes, and it is what the one transcription request carries. -/
theorem assembled_payload_in_arrival_order (env : Env) (s : Sys) (rid : Nat) (r : MediaRecorder)
    (before after : List (Option Blob)) (response : FetchResult)
    (hrec : s.app.isRecording = true) (hcur : s.app.mediaRecorder = some rid)
    (hr : s.recorders.get? rid = some r) (hstate : r.state = RecorderState.recording)
    (hstop : r.stopThrows = none) (hempty : s.app.audioChunks = []) :
    (run env s (before.map (Event.dataavailable rid) ++ [Event.endSignal] ++
        after.map (Event.dataavailable rid))).app.audioChunks =
        nonEmptyFragments (before ++ after) ∧
      (run env s (before.map (Event.dataavailable rid) ++ [Event.endSignal] ++
        after.map (Event.dataavailable rid) ++ [Event.stopComplete rid response])).log =
        s.log ++ [Effect.recordingUi false] ++
          processRecording (nonEmptyFragments (before ++ after)) response ∧
      transcriptionRequests (processRecording (nonEmptyFragments (before ++ after)) response) =
        (if nonEmptyFragments (before ++ after) = [] then []
         else [Effect.fetchTranscribe
            { bytes := ((before ++ after).reduceOption.map Blob.bytes).flatten,
              type := "audio/wav" }
            "recording.wav"]) ∧
      (Blob.ofParts (nonEmptyFragments (before ++ after)) "audio/wav").bytes =
        ((before ++ after).reduceOption.map Blob.bytes).flatten ∧
      (Blob.ofParts (nonEmptyFragments (before ++ after)) "audio/wav").size =
        ((before ++ after).reduceOption.map Blob.size).sum := by
  have hrid : rid < s.recorders.length := by
    rcases Nat.lt_or_ge rid s.recorders.length with h | h
    · exact h
    · rw [List.get?_eq_none.mpr h] at hr
      cases hr
  -- the chunks delivered while Recording
  have h1 : run env s (before.map (Event.dataavailable rid)) =
      { s with app := { s.app with audioChunks := nonEmptyFragments before } } := by
    rw [run_dataavailable env rid before s hrid, foldl_ondataavailable, hempty, List.nil_append]
  -- the end-signal
  have h2 := stopRecording_of_recording
    { s with app := { s.app with audioChunks := nonEmptyFragments before } } rid r
    hrec hcur hr hstate hstop
  have hrun2 : run env s (before.map (Event.dataavailable rid) ++ [Event.endSignal]) =
      stopRecording { s with app := { s.app with audioChunks := nonEmptyFragments before } } := by
    rw [run_append, h1]
    rfl
  have hrid2 : rid < (stopRecording
      { s with app := { s.app with audioChunks := nonEmptyFragments before } }).recorders.length := by
    rw [h2.2.1, List.length_set]
    exact hrid
  -- the chunks flushed after the end-signal
  have hrun3 : run env s (before.map (Event.dataavailable rid) ++ [Event.endSignal] ++
      after.map (Event.dataavailable rid)) =
      { stopRecording { s with app := { s.app with audioChunks := nonEmptyFragments before } } with
        app := { (stopRecording
            { s with app := { s.app with audioChunks := nonEmptyFragments before } }).app with
          audioChunks := nonEmptyFragments before ++ nonEmptyFragments after } } := by
    rw [run_append, hrun2, run_dataavailable env rid after _ hrid2, foldl_ondataavailable, h2.1]
  have hsplit : nonEmptyFragments (before ++ after) =
      nonEmptyFragments before ++ nonEmptyFragments after := by
    unfold nonEmptyFragments
    rw [List.reduceOption_append, List.filter_append]
  have hbytes : (Blob.ofParts (nonEmptyFragments (before ++ after)) "audio/wav").bytes =
      ((before ++ after).reduceOption.map Blob.bytes).flatten := by
    unfold Blob.ofParts
    exact bytes_nonEmptyFragments (before ++ after)
  refine ⟨?_, ?_, ?_, hbytes, ?_⟩
  · rw [hrun3, hsplit]
  · rw [run_append, hrun3]
    have hget : (stopRecording
        { s with app := { s.app with audioChunks := nonEmptyFragments before } }).recorders.get? rid =
        some { r with state := RecorderState.inactive, stopQueued := true } := by
      rw [h2.2.1, List.get?_eq_getElem?, List.getElem?_set_self hrid]
    simp only [run, List.foldl_cons, List.foldl_nil, step, hget, if_true, onstop, Sys.emit, h2.2.2,
      hsplit]
  · rw [transcriptionRequests_processRecording]
    by_cases hk : nonEmptyFragments (before ++ after) = []
    · simp [hk]
    · have hsum : ¬ ((nonEmptyFragments (before ++ after)).map Blob.size).sum = 0 :=
        fun h => hk ((sum_nonEmptyFragments_eq_zero (before ++ after)).mp h)
      simp only [hk, hsum, or_self, if_false]
      unfold Blob.ofParts
      rw [bytes_nonEmptyFragments]
  · unfold Blob.size
    rw [hbytes, List.length_flatten, List.map_map]
    rfl

theorem assembled_payload_in_arrival_order_witness :
    (run envModern (run envModern Sys.init [Event.beginSignal, Event.grant 0 micStream okPlan])
        ([some (blobOf [1, 2]), some (blobOf []), some (blobOf [3])].map (Event.dataavailable 0) ++
          [Event.endSignal] ++ [none, some (blobOf [4, 5])].map (Event.dataavailable 0) ++
          [Event.stopComplete 0 FetchResult.threw])).log =
      [Effect.getUserMedia constraints, Effect.recordingUi true, Effect.recordingUi false,
        Effect.showLoading true,
        Effect.fetchTranscribe { bytes := [1, 2, 3, 4, 5], type := "audio/wav" } "recording.wav",
        Effect.addMessage "system" "❌ Recording processing failed. Please try again.",
        Effect.showLoading false] :=
  (assembled_payload_in_arrival_order envModern
    (run envModern Sys.init [Event.beginSignal, Event.grant 0 micStream okPlan]) 0
    { stream := some 0, options := some "audio/webm;codecs=opus",
      state := RecorderState.recording, stopThrows := none, hasOnError := true,
      stopQueued := false }
    [some (blobOf [1, 2]), some (blobOf []), some (blobOf [3])] [none, some (blobOf [4, 5])]
    FetchResult.threw (by decide) (by decide) (by decide) rfl rfl (by decide)).2.1.trans
    (by decide)

/-! ## Preflight checks -/

theorem isLocalhost_iff (hostname : String) :
    isLocalhost hostname = true ↔
      (hostname = "localhost" ∨ hostname = "127.0.0.1" ∨ hostname = "0.0.0.0" ∨
        "192.168.".data <+: hostname.data ∨ "10.".data <+: hostname.data ∨
        ".local".data <:+ hostname.data) := by
  simp only [isLocalhost, startsWith, endsWith, Bool.or_eq_true, beq_iff_eq,
    List.isPrefixOf_iff_prefix, List.isSuffixOf_iff_suffix, or_assoc]

/-- C7 (as stated, refuted): with the recorder API absent, a page that only has
the callback `getUserMedia` still requests a media stream; and an insecure
public page fails with the HTTPS message, not with the recorder one. -/
theorem startRecording_without_recorder_requests_legacy_stream :
    ((envLegacy true false).windowMediaRecorder = false ∧
      step (envLegacy true false) Sys.init Event.beginSignal =
        { Sys.init with log := [Effect.legacyGetUserMedia], pending := [Request.legacy] } ∧
      captureState (step (envLegacy true false) Sys.init Event.beginSignal) =
        CaptureState.requesting) ∧
    step { envInsecure "example.com" with windowMediaRecorder := false } Sys.init
        Event.beginSignal =
      { Sys.init with log := [Effect.showRecordingError
          "Microphone requires HTTPS. Please use https:// or run on localhost."] } := by
  decide

/-- C7 (amended): with the recorder API absent and `navigator.mediaDevices`
present, a begin-signal of a controller that is not recording requests no
media stream and changes no field of the controller; it only shows one error:
the recorder one when `getUserMedia` exists and the page is secure or local,
else the error of the earlier check that fails. -/
theorem startRecording_without_recorder_on_modern_path (env : Env) (s : Sys)
    (hrecorder : env.windowMediaRecorder = false) (hnav : env.hasNavigator = true)
    (hmd : env.mediaDevices = true) (hidle : s.app.isRecording = false) :
    step env s Event.beginSignal =
        { s with log := s.log ++ [Effect.showRecordingError
          (if env.mediaDevicesGetUserMedia = false then
            "getUserMedia not available. Please update your browser."
          else if isLocalhost env.hostname = false ∧ env.isSecureContext = false then
            "Microphone requires HTTPS. Please use https:// or run on localhost."
          else "MediaRecorder not supported in this browser.")] } ∧
      (step env s Event.beginSignal).pending = s.pending ∧
      streamRequests (step env s Event.beginSignal).log = streamRequests s.log ∧
      (step env s Event.beginSignal).app = s.app := by
  have hstep : step env s Event.beginSignal =
      { s with log := s.log ++ [Effect.showRecordingError
        (if env.mediaDevicesGetUserMedia = false then
          "getUserMedia not available. Please update your browser."
        else if isLocalhost env.hostname = false ∧ env.isSecureContext = false then
          "Microphone requires HTTPS. Please use https:// or run on localhost."
        else "MediaRecorder not supported in this browser.")] } := by
    simp only [step, startRecording, hidle, hnav, hmd, hrecorder, showRecordingError, Sys.emit]
    cases env.mediaDevicesGetUserMedia <;> cases isLocalhost env.hostname <;>
      cases env.isSecureContext <;> simp
  refine ⟨hstep, ?_, ?_, ?_⟩
  · rw [hstep]
  · rw [hstep]
    simp [streamRequests, List.filter_append]
  · rw [hstep]

theorem startRecording_without_recorder_on_modern_path_witness :
    step { envModern with windowMediaRecorder := false } Sys.init Event.beginSignal =
      { Sys.init with log :=
          [Effect.showRecordingError "MediaRecorder not supported in this browser."] } :=
  (startRecording_without_recorder_on_modern_path
    { envModern with windowMediaRecorder := false } Sys.init rfl rfl rfl rfl).1.trans (by decide)

/-- C8 (the code at the failing inputs): in an insecure context on a host that
is no loopback address, no private-range address and has no local suffix, a
begin-signal shows no error and requests a media stream: on the modern path
for the public names `10.evil.com` and `192.168.evil.com`, which the prefix
test of `isLocalhost` takes for local, and on the legacy path, which has no
HTTPS check, for `example.com`. -/
theorem insecure_public_host_requests_stream :
    ((envInsecure "10.evil.com").isSecureContext = false ∧
      isLoopbackAddress "10.evil.com" = false ∧ isPrivateRangeAddress "10.evil.com" = false ∧
      hasLocalSuffix "10.evil.com" = false ∧
      step (envInsecure "10.evil.com") Sys.init Event.beginSignal =
        { Sys.init with log := [Effect.getUserMedia constraints],
                        pending := [Request.modern] }) ∧
    (isLocalTrustedHost "192.168.evil.com" = false ∧
      step (envInsecure "192.168.evil.com") Sys.init Event.beginSignal =
        { Sys.init with log := [Effect.getUserMedia constraints],
                        pending := [Request.modern] }) ∧
    ((envLegacy false true).isSecureContext = false ∧
      isLocalhost (envLegacy false true).hostname = false ∧
      isLocalTrustedHost (envLegacy false true).hostname = false ∧
      (envLegacy false true).legacyGetUserMedia = true ∧
      step (envLegacy false true) Sys.init Event.beginSignal =
        { Sys.init with log := [Effect.legacyGetUserMedia], pending := [Request.legacy] }) := by
  decide

/-- Where the context is not secure and `isLocalhost` is false of the hostname
(none of `localhost`, `127.0.0.1`, `0.0.0.0`, no prefix `192.168.` or `10.`, no
suffix `.local`), a begin-signal on the modern path of a controller that is
not recording only shows the HTTPS error: no media stream is requested. -/
theorem startRecording_insecure_on_modern_path (env : Env) (s : Sys)
    (hsecure : env.isSecureContext = false)
    (hhost : ¬ (env.hostname = "localhost" ∨ env.hostname = "127.0.0.1" ∨
      env.hostname = "0.0.0.0" ∨ "192.168.".data <+: env.hostname.data ∨
      "10.".data <+: env.hostname.data ∨ ".local".data <:+ env.hostname.data))
    (hnav : env.hasNavigator = true) (hmd : env.mediaDevices = true)
    (hgum : env.mediaDevicesGetUserMedia = true) (hidle : s.app.isRecording = false) :
    step env s Event.beginSignal =
        { s with log := s.log ++ [Effect.showRecordingError
          "Microphone requires HTTPS. Please use https:// or run on localhost."] } ∧
      (step env s Event.beginSignal).pending = s.pending ∧
      streamRequests (step env s Event.beginSignal).log = streamRequests s.log := by
  have hlocal : isLocalhost env.hostname = false := by
    rw [← Bool.not_eq_true]
    exact fun h => hhost ((isLocalhost_iff env.hostname).mp h)
  have hstep : step env s Event.beginSignal =
      { s with log := s.log ++ [Effect.showRecordingError
        "Microphone requires HTTPS. Please use https:// or run on localhost."] } := by
    simp [step, startRecording, hidle, hnav, hmd, hgum, hsecure, hlocal, showRecordingError,
      Sys.emit]
  refine ⟨hstep, ?_, ?_⟩
  · rw [hstep]
  · rw [hstep]
    simp [streamRequests, List.filter_append]

theorem startRecording_insecure_on_modern_path_witness :
    step (envInsecure "example.com") Sys.init Event.beginSignal =
      { Sys.init with log := [Effect.showRecordingError
          "Microphone requires HTTPS. Please use https:// or run on localhost."] } :=
  (startRecording_insecure_on_modern_path (envInsecure "example.com") Sys.init rfl
    (by decide) rfl rfl rfl rfl).1.trans (by decide)

/-! ## Local hosts -/

/-- C9 (as stated, refuted): `172.16.0.1` is a private-range address and
`127.0.0.2` a loopback address, yet neither is classified local: on an insecure
page with every API present the begin-signal fails with the HTTPS error and
requests nothing. -/
theorem private_and_loopback_hosts_not_classified_local :
    (isPrivateRangeAddress "172.16.0.1" = true ∧ isLocalhost "172.16.0.1" = false ∧
      step (envInsecure "172.16.0.1") Sys.init Event.beginSignal =
        { Sys.init with log := [Effect.showRecordingError
            "Microphone requires HTTPS. Please use https:// or run on localhost."] }) ∧
    (isLoopbackAddress "127.0.0.2" = true ∧ isLocalhost "127.0.0.2" = false ∧
      step (envInsecure "127.0.0.2") Sys.init Event.beginSignal =
        { Sys.init with log := [Effect.showRecordingError
            "Microphone requires HTTPS. Please use https:// or run on localhost."] }) := by
  decide

/-- C9 (amended): every hostname that is `localhost`, `127.0.0.1` or `0.0.0.0`,
or starts with `192.168.` or `10.`, or ends with `.local`, is classified local,
so that in an insecure context with the modern capture API and the recorder API
present a begin-signal of a controller that is not recording shows no error and
requests the media stream; a grant with an audio track and a working recorder
then reaches Recording. -/
theorem startRecording_local_host_bypasses_https (env : Env) (s : Sys)
    (hhost : env.hostname = "localhost" ∨ env.hostname = "127.0.0.1" ∨
      env.hostname = "0.0.0.0" ∨ "192.168.".data <+: env.hostname.data ∨
      "10.".data <+: env.hostname.data ∨ ".local".data <:+ env.hostname.data)
    (hsecure : env.isSecureContext = false) (hnav : env.hasNavigator = true)
    (hmd : env.mediaDevices = true) (hgum : env.mediaDevicesGetUserMedia = true)
    (hrecorder : env.windowMediaRecorder = true) (hidle : s.app.isRecording = false) :
    isLocalhost env.hostname = true ∧
      step env s Event.beginSignal =
        { s with log := s.log ++ [Effect.getUserMedia constraints],
                 pending := s.pending ++ [Request.modern] } ∧
      (∀ (stream : MediaStream) (plan : RecorderPlan),
        stream.getAudioTracks ≠ [] → plan.ctorThrows = none → plan.startThrows = none →
        captureState (run env s [Event.beginSignal, Event.grant s.pending.length stream plan]) =
          CaptureState.recording) := by
  have hlocal : isLocalhost env.hostname = true := (isLocalhost_iff env.hostname).mpr hhost
  have hstep : step env s Event.beginSignal =
      { s with log := s.log ++ [Effect.getUserMedia constraints],
               pending := s.pending ++ [Request.modern] } := by
    simp [step, startRecording, hidle, hnav, hmd, hgum, hsecure, hlocal, hrecorder, Sys.emit]
  refine ⟨hlocal, hstep, ?_⟩
  intro stream plan htracks hctor hstart
  rw [captureState_recording_iff]
  have hlen : ¬ stream.getAudioTracks.length = 0 := fun h => htracks (List.length_eq_zero.mp h)
  have hget : (s.pending ++ [Request.modern]).get? s.pending.length = some Request.modern := by
    simp [List.get?_eq_getElem?]
  simp only [run, List.foldl_cons, List.foldl_nil, hstep]
  simp only [step, hget, startRecordingGranted, hlen, if_false, hctor, hstart]

theorem startRecording_local_host_bypasses_https_witness :
    step (envInsecure "192.168.1.20") Sys.init Event.beginSignal =
      { Sys.init with log := [Effect.getUserMedia constraints], pending := [Request.modern] } :=
  (startRecording_local_host_bypasses_https (envInsecure "192.168.1.20") Sys.init
    (by decide) rfl rfl rfl rfl rfl rfl).2.1.trans (by decide)

/-! ## Classification of a rejected request -/

/-- C10 (the code at the failing input): on the legacy path a rejection is not
classified by its name: `NotAllowedError` and `NotFoundError`, two rows of the
failure table, end in the same page with the same generic message, where the
`catch` block of the modern path shows the guidance of PermissionDenied for
the same error. -/
theorem legacy_rejection_ignores_error_name :
    failureTable "NotAllowedError" ≠ failureTable "NotFoundError" ∧
      (run envModern Sys.init
          [Event.beginSignal, Event.reject 0 (sampleError "NotAllowedError")]).log =
        [Effect.getUserMedia constraints,
         Effect.showRecordingError
          "Could not start recording: Microphone access denied. Please click the microphone icon in your browser's address bar and allow access."] ∧
      run (envLegacy true true) Sys.init
          [Event.beginSignal, Event.reject 0 (sampleError "NotAllowedError")] =
        run (envLegacy true true) Sys.init
          [Event.beginSignal, Event.reject 0 (sampleError "NotFoundError")] ∧
      (run (envLegacy true true) Sys.init
          [Event.beginSignal, Event.reject 0 (sampleError "NotAllowedError")]).log =
        [Effect.legacyGetUserMedia,
         Effect.showRecordingError "Microphone access failed: failed"] ∧
      (run (envLegacy true true) Sys.init
          [Event.beginSignal,
           Event.reject 0 { name := "NotAllowedError", message := none }]).log =
        [Effect.legacyGetUserMedia,
         Effect.showRecordingError "Microphone access failed: undefined"] := by
  decide

/-- The `catch` block of `startRecording` follows the failure table: the five
platform names map to five pairwise distinct reasons with pairwise distinct
guidance, every other name maps to the one generic reason carrying the
platform message, and the message shown is the guidance of the reason for
every error there is.  The error callback of `startRecordingLegacy` shows one
generic text with the platform message written out, whatever the name.  Either
handler only removes the pending request and shows the error. -/
theorem rejection_follows_failureTable (env : Env) (s : Sys) (i : Nat) (error : JsError) :
    (failureTable "NotAllowedError" = FailureReason.permissionDenied ∧
      failureTable "NotFoundError" = FailureReason.deviceNotFound ∧
      failureTable "NotReadableError" = FailureReason.deviceBusy ∧
      failureTable "OverconstrainedError" = FailureReason.constraintsUnsatisfiable ∧
      failureTable "SecurityError" = FailureReason.securityError) ∧
    (failureTable error.name = FailureReason.unknownCaptureFailure ↔
      error.name ∉ ["NotAllowedError", "NotFoundError", "NotReadableError",
        "OverconstrainedError", "SecurityError"]) ∧
    catchMessage error =
      "Could not start recording: " ++ (failureTable error.name).guidance error.message ∧
    ([FailureReason.permissionDenied, FailureReason.deviceNotFound, FailureReason.deviceBusy,
      FailureReason.constraintsUnsatisfiable, FailureReason.securityError].map
        (FailureReason.guidance error.message)).Nodup ∧
    step env s (Event.reject i error) =
      (match s.pending.get? i with
        | some Request.modern =>
          { s with pending := s.pending.eraseIdx i,
                   log := s.log ++ [Effect.showRecordingError (catchMessage error)] }
        | some Request.legacy =>
          { s with pending := s.pending.eraseIdx i,
                   log := s.log ++
                     [Effect.showRecordingError
                       ("Microphone access failed: " ++ jsString error.message)] }
        | none => s) := by
  refine ⟨by decide, ?_, ?_, ?_, ?_⟩
  · unfold failureTable
    simp only [List.mem_cons, List.mem_singleton, List.not_mem_nil, or_false, not_or]
    split_ifs <;> simp_all
  · unfold catchMessage failureTable
    split_ifs <;> rfl
  · simp only [List.map, FailureReason.guidance]
    decide
  · simp only [step]
    cases s.pending.get? i with
    | none => rfl
    | some request => cases request <;> rfl

/-! ## Selection of the encoding -/

theorem selectMimeType_eq_find (isTypeSupported : String → Bool) :
    selectMimeType isTypeSupported = (probedMimeTypes.find? isTypeSupported).getD "" := by
  unfold selectMimeType probedMimeTypes
  cases h1 : isTypeSupported "audio/webm;codecs=opus" <;>
    cases h2 : isTypeSupported "audio/webm" <;>
    cases h3 : isTypeSupported "audio/mp4" <;>
    simp [List.find?, h1, h2, h3]

theorem find_probedMimeTypes_ne_empty (isTypeSupported : String → Bool) (mimeType : String)
    (h : probedMimeTypes.find? isTypeSupported = some mimeType) : mimeType ≠ "" := by
  have hmem : mimeType ∈ probedMimeTypes := List.mem_of_find?_eq_some h
  intro hempty
  rw [hempty] at hmem
  revert hmem
  decide

/-- C11 (as stated, refuted): where neither compressed encoding is supported
but `audio/mp4` is, the first supported entry of the stated order is the empty
hint, yet the code selects `audio/mp4` and creates the recorder with that
hint. -/
theorem mp4_selected_when_webm_unsupported :
    (specMimeTypes.find? envMp4Only.isTypeSupported).getD "" = "" ∧
      selectMimeType envMp4Only.isTypeSupported = "audio/mp4" ∧
      (run envMp4Only Sys.init [Event.beginSignal, Event.grant 0 micStream okPlan]).recorders.map
          (fun r => r.options) = [some "audio/mp4"] := by
  decide

/-- C11 (amended): for every support predicate, on a stream granted on the
modern path with at least one audio track, the selected encoding is the first
supported entry of the order `audio/webm;codecs=opus`, `audio/webm`,
`audio/mp4`, and the empty hint when none is supported; the recorder built for
the stream is the controller's recorder and carries that encoding as its hint,
and no hint exactly when none of the three is supported. -/
theorem recorder_created_with_first_supported_encoding (env : Env) (s : Sys) (i : Nat)
    (stream : MediaStream) (plan : RecorderPlan)
    (hpending : s.pending.get? i = some Request.modern)
    (htracks : stream.getAudioTracks ≠ []) (hctor : plan.ctorThrows = none) :
    selectMimeType env.isTypeSupported = (probedMimeTypes.find? env.isTypeSupported).getD "" ∧
      (step env s (Event.grant i stream plan)).app.mediaRecorder = some s.recorders.length ∧
      ((step env s (Event.grant i stream plan)).recorders.get? s.recorders.length).map
          (fun r => r.options) = some (probedMimeTypes.find? env.isTypeSupported) ∧
      (probedMimeTypes.find? env.isTypeSupported = none ↔
        (env.isTypeSupported "audio/webm;codecs=opus" = false ∧
          env.isTypeSupported "audio/webm" = false ∧
          env.isTypeSupported "audio/mp4" = false)) := by
  have hlen : ¬ stream.getAudioTracks.length = 0 := fun h => htracks (List.length_eq_zero.mp h)
  have hoptions : (if selectMimeType env.isTypeSupported = "" then none
      else some (selectMimeType env.isTypeSupported)) =
      probedMimeTypes.find? env.isTypeSupported := by
    rw [selectMimeType_eq_find]
    cases hfind : probedMimeTypes.find? env.isTypeSupported with
    | none => simp
    | some mimeType =>
      have hne := find_probedMimeTypes_ne_empty env.isTypeSupported mimeType hfind
      simp [hne]
  refine ⟨selectMimeType_eq_find env.isTypeSupported, ?_, ?_, ?_⟩
  · simp only [step, hpending, startRecordingGranted, hlen, if_false, hctor]
    cases plan.startThrows <;> simp [startRecordingCatch, showRecordingError, Sys.emit]
  · simp only [step, hpending, startRecordingGranted, hlen, if_false, hctor, hoptions]
    cases plan.startThrows <;>
      simp [startRecordingCatch, showRecordingError, Sys.emit, List.get?_eq_getElem?]
  · simp [probedMimeTypes, List.find?_eq_none]

theorem recorder_created_with_first_supported_encoding_witness :
    ((step envModern (run envModern Sys.init [Event.beginSignal])
        (Event.grant 0 micStream okPlan)).recorders.get? 0).map (fun r => r.options) =
      some (some "audio/webm;codecs=opus") :=
  (recorder_created_with_first_supported_encoding envModern
    (run envModern Sys.init [Event.beginSignal]) 0 micStream okPlan
    (by decide) (by decide) rfl).2.2.1.trans (by decide)

/-! ## Failure paths -/

theorem startRecording_app (env : Env) (s : Sys) : (startRecording env s).app = s.app := by
  simp only [startRecording, startRecordingLegacy, showRecordingError, Sys.emit]
  split_ifs <;> rfl

theorem startRecording_recorders (env : Env) (s : Sys) :
    (startRecording env s).recorders = s.recorders := by
  simp only [startRecording, startRecordingLegacy, showRecordingError, Sys.emit]
  split_ifs <;> rfl

theorem startRecording_accepted (env : Env) (s : Sys) (hidle : s.app.isRecording = false) :
    s.log.length < (startRecording env s).log.length := by
  simp only [startRecording, startRecordingLegacy, showRecordingError, Sys.emit, hidle,
    Bool.false_eq_true, if_false]
  split_ifs <;> simp only [List.length_append, List.length_singleton] <;> omega

theorem reject_app (env : Env) (s : Sys) (i : Nat) (error : JsError) :
    (step env s (Event.reject i error)).app = s.app := by
  simp only [step]
  cases s.pending.get? i with
  | none => rfl
  | some request => cases request <;> rfl

theorem stopRecording_clears (s : Sys) (rid : Nat) (r : MediaRecorder)
    (hcur : s.app.mediaRecorder = some rid) (hr : s.recorders.get? rid = some r) :
    (stopRecording s).app.isRecording = false := by
  unfold stopRecording
  cases hrec : s.app.isRecording with
  | false => simpa using hrec
  | true => simp only [Bool.not_true, Bool.false_eq_true, if_false, hcur, hr]

theorem grant_failure_modern (env : Env) (s : Sys) (i : Nat) (stream : MediaStream)
    (plan : RecorderPlan) (hpending : s.pending.get? i = some Request.modern)
    (hfail : stream.getAudioTracks = [] ∨ plan.ctorThrows ≠ none ∨ plan.startThrows ≠ none) :
    (step env s (Event.grant i stream plan)).app.isRecording = s.app.isRecording := by
  simp only [step, hpending, startRecordingGranted]
  by_cases htracks : stream.getAudioTracks.length = 0
  · simp [htracks, showRecordingError, Sys.emit]
  · have hne : stream.getAudioTracks ≠ [] := fun h => htracks (by rw [h]; rfl)
    simp only [htracks, if_false]
    cases hctor : plan.ctorThrows with
    | some error => simp [startRecordingCatch, showRecordingError, Sys.emit]
    | none =>
      cases hstart : plan.startThrows with
      | some error => simp [startRecordingCatch, showRecordingError, Sys.emit]
      | none =>
        rcases hfail with h | h | h
        · exact absurd h hne
        · exact absurd hctor h
        · exact absurd hstart h

theorem grant_failure_legacy (env : Env) (s : Sys) (i : Nat) (stream : MediaStream)
    (plan : RecorderPlan) (hpending : s.pending.get? i = some Request.legacy)
    (hfail : env.windowMediaRecorder = false ∨ plan.ctorThrows ≠ none ∨
      plan.startThrows ≠ none) :
    (step env s (Event.grant i stream plan)).app.isRecording = s.app.isRecording := by
  simp only [step, hpending, startRecordingLegacyGranted]
  cases hrecorder : env.windowMediaRecorder with
  | false => simp [showRecordingError, Sys.emit]
  | true =>
    simp only [Bool.not_true, Bool.false_eq_true, if_false]
    cases hctor : plan.ctorThrows with
    | some error => simp [showRecordingError, Sys.emit]
    | none =>
      cases hstart : plan.startThrows with
      | some error => simp [showRecordingError, Sys.emit]
      | none =>
        rcases hfail with h | h | h
        · rw [hrecorder] at h; cases h
        · exact absurd hctor h
        · exact absurd hstart h

theorem recorderError_modern_clears (env : Env) (s : Sys) (rid : Nat) (r : MediaRecorder)
    (error : Option JsError) (hcur : s.app.mediaRecorder = some rid)
    (hr : s.recorders.get? rid = some r) (hhandler : r.hasOnError = true) :
    (step env s (Event.recorderError rid error)).app.isRecording = false := by
  have hrid : rid < s.recorders.length := by
    rcases Nat.lt_or_ge rid s.recorders.length with h | h
    · exact h
    · rw [List.get?_eq_none.mpr h] at hr
      cases hr
  simp only [step, hr, hhandler, if_true, onerror]
  apply stopRecording_clears _ rid { r with state := RecorderState.inactive, stopQueued := true }
  · exact hcur
  · simp only [showRecordingError, Sys.emit]
    rw [List.get?_eq_getElem?, List.getElem?_set_self hrid, hhandler]

theorem grant_success_modern (env : Env) (s : Sys) (i : Nat) (stream : MediaStream)
    (plan : RecorderPlan) (hpending : s.pending.get? i = some Request.modern)
    (htracks : stream.getAudioTracks ≠ []) (hctor : plan.ctorThrows = none)
    (hstart : plan.startThrows = none) :
    (step env s (Event.grant i stream plan)).app.isRecording = true ∧
      (step env s (Event.grant i stream plan)).app.mediaRecorder = some s.recorders.length ∧
      ∃ r, (step env s (Event.grant i stream plan)).recorders.get? s.recorders.length = some r ∧
        r.hasOnError = true := by
  have hlen : ¬ stream.getAudioTracks.length = 0 := fun h => htracks (List.length_eq_zero.mp h)
  simp only [step, hpending, startRecordingGranted, hlen, if_false, hctor, hstart]
  refine ⟨trivial, trivial, ?_⟩
  simp [List.get?_eq_getElem?]

/-- C12 (the code at the failing input): on a page with only the callback
`getUserMedia` the recorder gets no `onerror` handler: after a begin-signal
from the initial state, a grant and a recorder error during Recording the
controller is still recording, also once the recorder's `stop` event has
fired, and the next begin-signal is ignored. -/
theorem legacy_recorder_error_leaves_recording :
    captureState (run (envLegacy true true) Sys.init
        [Event.beginSignal, Event.grant 0 micStream okPlan]) = CaptureState.recording ∧
      (run (envLegacy true true) Sys.init
        [Event.beginSignal, Event.grant 0 micStream okPlan,
         Event.recorderError 0 (some (sampleError "UnknownError"))]).app.isRecording = true ∧
      (run (envLegacy true true) Sys.init
        [Event.beginSignal, Event.grant 0 micStream okPlan,
         Event.recorderError 0 (some (sampleError "UnknownError")),
         Event.stopComplete 0 FetchResult.threw]).app.isRecording = true ∧
      run (envLegacy true true) Sys.init
        [Event.beginSignal, Event.grant 0 micStream okPlan,
         Event.recorderError 0 (some (sampleError "UnknownError")), Event.beginSignal] =
        run (envLegacy true true) Sys.init
          [Event.beginSignal, Event.grant 0 micStream okPlan,
           Event.recorderError 0 (some (sampleError "UnknownError"))] := by
  decide

/-- A begin-signal issued while the controller is not recording and followed
directly by its outcome: the controller is not recording after any outcome of
the preflight, after a rejection on either path, after a grant that fails
before Recording (no audio track on the modern path, recorder API missing on
the legacy path, recorder constructor or `start` throwing on either), and
after a recorder error during Recording on the modern path; and every
begin-signal received while not recording passes the guard: its preflight runs
and shows an error or requests a stream. -/
theorem failure_leaves_controller_not_recording (env : Env) (s : Sys)
    (hidle : s.app.isRecording = false) :
    ((step env s Event.beginSignal).app.isRecording = false ∧
      s.log.length < (step env s Event.beginSignal).log.length) ∧
    (∀ (i : Nat) (error : JsError),
      (run env s [Event.beginSignal, Event.reject i error]).app.isRecording = false) ∧
    (∀ (i : Nat) (stream : MediaStream) (plan : RecorderPlan),
      (step env s Event.beginSignal).pending.get? i = some Request.modern →
      (stream.getAudioTracks = [] ∨ plan.ctorThrows ≠ none ∨ plan.startThrows ≠ none) →
      (run env s [Event.beginSignal, Event.grant i stream plan]).app.isRecording = false) ∧
    (∀ (i : Nat) (stream : MediaStream) (plan : RecorderPlan),
      (step env s Event.beginSignal).pending.get? i = some Request.legacy →
      (env.windowMediaRecorder = false ∨ plan.ctorThrows ≠ none ∨ plan.startThrows ≠ none) →
      (run env s [Event.beginSignal, Event.grant i stream plan]).app.isRecording = false) ∧
    (∀ (i : Nat) (stream : MediaStream) (plan : RecorderPlan) (error : Option JsError),
      (step env s Event.beginSignal).pending.get? i = some Request.modern →
      stream.getAudioTracks ≠ [] → plan.ctorThrows = none → plan.startThrows = none →
      captureState (run env s [Event.beginSignal, Event.grant i stream plan]) =
          CaptureState.recording ∧
        (run env s [Event.beginSignal, Event.grant i stream plan,
          Event.recorderError s.recorders.length error]).app.isRecording = false) ∧
    (∀ t : Sys, t.app.isRecording = false →
      t.log.length < (step env t Event.beginSignal).log.length) := by
  have happ : (step env s Event.beginSignal).app = s.app := startRecording_app env s
  have hrecs : (step env s Event.beginSignal).recorders = s.recorders :=
    startRecording_recorders env s
  refine ⟨⟨?_, startRecording_accepted env s hidle⟩, ?_, ?_, ?_, ?_, ?_⟩
  · rw [happ]; exact hidle
  · intro i error
    simp only [run, List.foldl_cons, List.foldl_nil]
    rw [reject_app, happ]
    exact hidle
  · intro i stream plan hpending hfail
    simp only [run, List.foldl_cons, List.foldl_nil]
    rw [grant_failure_modern env _ i stream plan hpending hfail, happ]
    exact hidle
  · intro i stream plan hpending hfail
    simp only [run, List.foldl_cons, List.foldl_nil]
    rw [grant_failure_legacy env _ i stream plan hpending hfail, happ]
    exact hidle
  · intro i stream plan error hpending htracks hctor hstart
    have hgrant := grant_success_modern env (step env s Event.beginSignal) i stream plan
      hpending htracks hctor hstart
    rw [hrecs] at hgrant
    obtain ⟨hrec, hcur, r, hr, hhandler⟩ := hgrant
    simp only [run, List.foldl_cons, List.foldl_nil]
    exact ⟨(captureState_recording_iff _).mpr hrec,
      recorderError_modern_clears env _ s.recorders.length r error hcur hr hhandler⟩
  · intro t ht
    exact startRecording_accepted env t ht

theorem failure_leaves_controller_not_recording_witness :
    (run envModern Sys.init
        [Event.beginSignal, Event.reject 0 (sampleError "NotReadableError")]).app.isRecording =
        false ∧
      (run envModern Sys.init
        [Event.beginSignal, Event.reject 0 (sampleError "NotReadableError"),
         Event.beginSignal]).pending = [Request.modern] :=
  ⟨(failure_leaves_controller_not_recording envModern Sys.init rfl).2.1 0
      (sampleError "NotReadableError"), by decide⟩

/-! ## Idempotency of `stopRecording` -/

theorem stopRecording_of_not_recording (s : Sys) (h : s.app.isRecording = false) :
    stopRecording s = s := by
  simp [stopRecording, h]

theorem stopRecording_idempotent (s : Sys) : stopRecording (stopRecording s) = stopRecording s := by
  cases hrec : s.app.isRecording with
  | false => rw [stopRecording_of_not_recording s hrec, stopRecording_of_not_recording s hrec]
  | true =>
    cases hcur : s.app.mediaRecorder with
    | none =>
      have hs : stopRecording s = s := by simp [stopRecording, hrec, hcur]
      rw [hs, hs]
    | some rid =>
      cases hr : s.recorders.get? rid with
      | none =>
        have hs : stopRecording s = s := by
          simp only [stopRecording, hrec, Bool.not_true, Bool.false_eq_true, if_false, hcur, hr]
        rw [hs, hs]
      | some r =>
        exact stopRecording_of_not_recording _ (stopRecording_clears s rid r hcur hr)

/-- C13: an end-signal while the controller is not in Recording, or while it
has no recorder, changes nothing: the flag, the recorder, the buffered chunks,
the recorders and streams of the page and the log are the same, so no encoder
stop is requested and no track is stopped; and from any state two consecutive
end-signals leave the same page as one. -/
theorem stopRecording_noop_when_not_recording (env : Env) (s : Sys)
    (h : captureState s ≠ CaptureState.recording ∨ s.app.mediaRecorder = none) :
    step env s Event.endSignal = s ∧
      (∀ t : Sys, run env t [Event.endSignal, Event.endSignal] = run env t [Event.endSignal]) := by
  constructor
  · rcases h with h | h
    · have hrec : s.app.isRecording = false := by
        rw [← Bool.not_eq_true]
        exact fun hr => h ((captureState_recording_iff s).mpr hr)
      exact stopRecording_of_not_recording s hrec
    · simp [step, stopRecording, h]
  · intro t
    exact stopRecording_idempotent t

theorem stopRecording_noop_when_not_recording_witness :
    captureState (run envModern Sys.init [Event.beginSignal]) = CaptureState.requesting ∧
      step envModern (run envModern Sys.init [Event.beginSignal]) Event.endSignal =
        run envModern Sys.init [Event.beginSignal] :=
  ⟨by decide, (stopRecording_noop_when_not_recording envModern
    (run envModern Sys.init [Event.beginSignal]) (Or.inl (by decide))).1⟩

end DebateApp
